import Mathlib

/-!
Shallow embedding of the animated-wave component (`animated-wave.component.ts`):
the mesh displacement engine ("ground plain"), the color-resolution chain, the
device/viewport adapter and the scene lifecycle manager.  Machine floats are
modelled as exact rationals; the external 2D gradient-noise function and the
square-root primitive are abstract parameters (`ℚ → ℚ → ℚ`, `ℚ → ℚ`).
-/

namespace Wave

/-- Source `THREE.Vector3` (also used for `THREE.Euler`): three rational components. -/
structure Vec3 where
  x : ℚ
  y : ℚ
  z : ℚ
deriving DecidableEq

/-- Source `addEase(pos, to, ease)`: per-axis exponential smoothing step
`pos.x += (to.x - pos.x) / ease` (functional rendering of the in-place update). -/
def addEase (pos : Vec3) (t : Vec3) (ease : ℚ) : Vec3 :=
  ⟨pos.x + (t.x - pos.x) / ease,
   pos.y + (t.y - pos.y) / ease,
   pos.z + (t.z - pos.z) / ease⟩

/-- Source `addEaseEuler(rot, to, ease)`: identical smoothing step on Euler angles. -/
def addEaseEuler (rot : Vec3) (t : Vec3) (ease : ℚ) : Vec3 :=
  ⟨rot.x + (t.x - rot.x) / ease,
   rot.y + (t.y - rot.y) / ease,
   rot.z + (t.z - rot.z) / ease⟩

/-- Source `screenWidth()`: `Math.max(0, window.innerWidth || ...)`; `w` is the raw
viewport width reported by the host environment. -/
def screenWidth (w : ℚ) : ℚ := max 0 w

/-- Source `screenHeight()`: `Math.max(0, window.innerHeight || ...)`. -/
def screenHeight (h : ℚ) : ℚ := max 0 h

/-- Source `screenCenterX()`: `screenWidth() / 2`. -/
def screenCenterX (w : ℚ) : ℚ := screenWidth w / 2

/-- Source `screenCenterY()`: `screenHeight() / 2`. -/
def screenCenterY (h : ℚ) : ℚ := screenHeight h / 2

/-- Source `mouseCenterX(e)`: `e.clientX - screenCenterX()` — pointer X relative to the
viewport center. -/
def mouseCenterX (w clientX : ℚ) : ℚ := clientX - screenCenterX w

/-- Source `mouseCenterY(e)`: `e.clientY - screenCenterY()`. -/
def mouseCenterY (h clientY : ℚ) : ℚ := clientY - screenCenterY h

/-- Source `THREE.Color`: rgb channels in the range 0–1. -/
structure Color where
  r : ℚ
  g : ℚ
  b : ℚ
deriving DecidableEq

/-- Source `new THREE.Color(0xffffff)`. -/
def white : Color := ⟨1, 1, 1⟩

/-- Source `new THREE.Color(0x000000)`. -/
def black : Color := ⟨0, 0, 0⟩

/-- Accumulator pass of the global regex match `/\d+/g`: collects the maximal
runs of decimal digits, each interpreted via `parseInt(m, 10)`. -/
def digitRunsGo : List Char → Option Nat → List Nat
  | [], none => []
  | [], some n => [n]
  | c :: rest, acc =>
    if c.isDigit then
      digitRunsGo rest (some (acc.getD 0 * 10 + (c.toNat - '0'.toNat)))
    else
      match acc with
      | some n => n :: digitRunsGo rest none
      | none => digitRunsGo rest none

/-- Source `color.match(/\d+/g)` with `parseInt(·, 10)` applied to every match. -/
def digitRuns (cs : List Char) : List Nat := digitRunsGo cs none

/-- Source `color.startsWith('rgb')`. -/
def startsWithRgb (s : String) : Bool :=
  match s.data with
  | 'r' :: 'g' :: 'b' :: _ => true
  | _ => false

/-- Source `parseColor(color)`.  `tryParse` stands for the external `new THREE.Color`
string constructor (`none` = the constructor throws, landing in `catch`). -/
def parseColor (tryParse : String → Option Color) (color : String) : Color :=
  match tryParse color with
  | some c => c
  | none =>
    if startsWithRgb color then
      match digitRuns color.data with
      | m0 :: m1 :: m2 :: _ => ⟨(m0 : ℚ) / 255, (m1 : ℚ) / 255, (m2 : ℚ) / 255⟩
      | _ => white
    else white

/-- Luminance expression inside `isColorDark`. -/
def luminance (c : Color) : ℚ := 0.299 * c.r + 0.587 * c.g + 0.114 * c.b

/-- Source `isColorDark(color)`: `luminance < 0.5`. -/
def isColorDark (c : Color) : Bool := decide (luminance c < 0.5)

/-- Source `getElementBackground(element)`: walk the ancestor chain (modelled as the
list of each ancestor's computed `backgroundColor`, `""` for a falsy value)
until a non-transparent background is found. -/
def getElementBackground (chain : List String) : Option String :=
  chain.find? fun bg => bg != "" && bg != "rgba(0, 0, 0, 0)" && bg != "transparent"

/-- Source `determineWaveColor()`.  `waveColor = ""` models the falsy/unset input,
`container = none` models an absent `containerRef.nativeElement`. -/
def determineWaveColor (tryParse : String → Option Color) (waveColor : String)
    (autoDetectBackground : Bool) (container : Option (List String)) : Color :=
  if waveColor ≠ "" then parseColor tryParse waveColor
  else
    match autoDetectBackground, container with
    | true, some chain =>
      match getElementBackground chain with
      | some detected =>
        if isColorDark (parseColor tryParse detected) then white else black
      | none => black
    | _, _ => black

/-- Quality tier (`type Quality = 'low' | 'medium' | 'high'`). -/
inductive Quality
  | low
  | medium
  | high
deriving DecidableEq

/-- Source `getQualitySettings(q)`: fixed segment counts per tier. -/
def getQualitySettings (q : Quality) : Nat × Nat :=
  match q with
  | .low => (64, 32)
  | .high => (256, 128)
  | .medium => (128, 64)

/-- The component's configuration inputs with their declared defaults. -/
structure WaveConfig where
  speed : ℚ := 0.015
  amplitude : ℚ := 30
  smoothness : ℚ := 300
  waveColor : String := ""
  opacity : ℚ := 1
  mouseInteraction : Bool := true
  quality : Quality := .medium
  fov : ℚ := 60
  waveOffsetY : ℚ := -300
  waveRotation : ℚ := 29.8
  cameraDistance : ℚ := -1000
  autoDetectBackground : Bool := true
  ease : ℚ := 12
  mouseDistortionStrength : ℚ := 0.5
  mouseDistortionSmoothness : ℚ := 100
  mouseDistortionDecay : ℚ := 0.0005
  mouseShrinkScaleStrength : ℚ := 0.7
  mouseShrinkScaleRadius : ℚ := 200

/-- The `groundPlain` object: resource handles (`none` = JS `null`) plus the
numeric animation state.  `positions` models the live
`geometry.attributes.position` buffer (one `(x, y, z)` triple per index) and
`originalPositions` the `_originalPositions` snapshot, with `count` the vertex
count of the geometry. -/
structure GroundPlain where
  group : Option (Vec3 × Vec3)
  geometry : Option Unit
  material : Option Unit
  plane : Option Unit
  simplex : Option (ℚ → ℚ → ℚ)
  factor : ℚ
  scale : ℚ
  speed : ℚ
  cycle : ℚ
  ease : ℚ
  move : Vec3
  look : Vec3
  mouseDistortionStrength : ℚ
  mouseDistortionSmoothness : ℚ
  mouseDistortionDecay : ℚ
  distortionTime : ℚ
  mouseShrinkScaleStrength : ℚ
  mouseShrinkScaleRadius : ℚ
  originalPositions : Nat → ℚ × ℚ × ℚ
  count : Nat
  positions : Nat → ℚ × ℚ × ℚ

/-- The literal initialisation of the `groundPlain` object inside
`createGroundPlain()` (all handles null, numeric state from the config).
`piRat` is the rational value of the float constant `Math.PI`. -/
def createGroundPlain (piRat : ℚ) (cfg : WaveConfig) : GroundPlain where
  group := none
  geometry := none
  material := none
  plane := none
  simplex := none
  factor := cfg.smoothness
  scale := cfg.amplitude
  speed := cfg.speed
  cycle := 0
  ease := cfg.ease
  move := ⟨0, cfg.waveOffsetY, cfg.cameraDistance⟩
  look := ⟨cfg.waveRotation * piRat / 180, 0, 0⟩
  mouseDistortionStrength := cfg.mouseDistortionStrength
  mouseDistortionSmoothness := cfg.mouseDistortionSmoothness
  mouseDistortionDecay := cfg.mouseDistortionDecay
  distortionTime := 0
  mouseShrinkScaleStrength := cfg.mouseShrinkScaleStrength
  mouseShrinkScaleRadius := cfg.mouseShrinkScaleRadius
  originalPositions := fun _ => (0, 0, 0)
  count := 0
  positions := fun _ => (0, 0, 0)

/-- The shrink falloff computed inside `moveNoise` from the pointer distance
`d`: `falloff = 0; if (d < radius) { falloff = 1 - d / radius; falloff =
Math.pow(falloff, 2); }`. -/
def shrinkFalloff (radius d : ℚ) : ℚ :=
  if d < radius then (1 - d / radius) ^ 2 else 0

/-- Source `moveNoise(mouse)`.  `mi` is `this.mouseInteraction`, `sq` the external
`Math.sqrt`, applied to `distX*distX + distY*distY`.  The early return on a
null `geometry`/`simplex` is the fallthrough branch of the match.  Note the
source increments `distortionTime` *before* the vertex loop and `cycle` after
it. -/
def GroundPlain.moveNoise (mi : Bool) (sq : ℚ → ℚ) (gp : GroundPlain)
    (mouse : ℚ × ℚ) : GroundPlain :=
  match gp.geometry, gp.simplex with
  | some _, some simplex =>
    let currentMouseX := if mi = true then mouse.1 else 0
    let currentMouseY := if mi = true then mouse.2 else 0
    let distortionTime := gp.distortionTime + gp.mouseDistortionDecay
    let newPositions : Nat → ℚ × ℚ × ℚ := fun i =>
      if i < gp.count then
        let originalX := (gp.originalPositions i).1
        let originalY := (gp.originalPositions i).2.1
        let zWave := simplex (originalX / gp.factor)
          (originalY / gp.factor + gp.cycle) * gp.scale
        let zOffset :=
          if mi = true ∧ 0 < gp.mouseDistortionStrength then
            let distX := originalX - currentMouseX * 0.5
            let distY := originalY - currentMouseY * 0.5
            let dist := sq (distX * distX + distY * distY)
            let t := distortionTime * 1000
            let ripple := simplex (distX / gp.mouseDistortionSmoothness + t)
              (distY / gp.mouseDistortionSmoothness - t) * gp.mouseDistortionStrength
            let zFalloff := max 0 (1 - dist / (gp.mouseShrinkScaleRadius * 2))
            zWave + ripple * gp.scale * zFalloff
          else zWave
        let newXY :=
          if mi = true ∧ 0 < gp.mouseShrinkScaleStrength then
            let dx := originalX - currentMouseX
            let dy := originalY - currentMouseY
            let d := sq (dx * dx + dy * dy)
            let falloff := shrinkFalloff gp.mouseShrinkScaleRadius d
            let shrinkAmount := gp.mouseShrinkScaleStrength * falloff
            (originalX - dx * shrinkAmount, originalY - dy * shrinkAmount)
          else (originalX, originalY)
        (newXY.1, newXY.2, zOffset)
      else gp.positions i
    { gp with
      positions := newPositions
      distortionTime := distortionTime
      cycle := gp.cycle + gp.speed }
  | _, _ => gp

/-- Modelled from the spec: `moveNoise` as §4.3 of the spec (and claim C5)
describe it, with `distortionTime` advanced only *after* all vertices are
processed, so that the ripple term samples the pre-increment value.  For
comparison with `GroundPlain.moveNoise`, which the source defines with the
increment before the loop. -/
def GroundPlain.moveNoiseSpecOrder (mi : Bool) (sq : ℚ → ℚ) (gp : GroundPlain)
    (mouse : ℚ × ℚ) : GroundPlain :=
  match gp.geometry, gp.simplex with
  | some _, some simplex =>
    let currentMouseX := if mi = true then mouse.1 else 0
    let currentMouseY := if mi = true then mouse.2 else 0
    let newPositions : Nat → ℚ × ℚ × ℚ := fun i =>
      if i < gp.count then
        let originalX := (gp.originalPositions i).1
        let originalY := (gp.originalPositions i).2.1
        let zWave := simplex (originalX / gp.factor)
          (originalY / gp.factor + gp.cycle) * gp.scale
        let zOffset :=
          if mi = true ∧ 0 < gp.mouseDistortionStrength then
            let distX := originalX - currentMouseX * 0.5
            let distY := originalY - currentMouseY * 0.5
            let dist := sq (distX * distX + distY * distY)
            let t := gp.distortionTime * 1000
            let ripple := simplex (distX / gp.mouseDistortionSmoothness + t)
              (distY / gp.mouseDistortionSmoothness - t) * gp.mouseDistortionStrength
            let zFalloff := max 0 (1 - dist / (gp.mouseShrinkScaleRadius * 2))
            zWave + ripple * gp.scale * zFalloff
          else zWave
        let newXY :=
          if mi = true ∧ 0 < gp.mouseShrinkScaleStrength then
            let dx := originalX - currentMouseX
            let dy := originalY - currentMouseY
            let d := sq (dx * dx + dy * dy)
            let falloff := shrinkFalloff gp.mouseShrinkScaleRadius d
            let shrinkAmount := gp.mouseShrinkScaleStrength * falloff
            (originalX - dx * shrinkAmount, originalY - dy * shrinkAmount)
          else (originalX, originalY)
        (newXY.1, newXY.2, zOffset)
      else gp.positions i
    { gp with
      positions := newPositions
      distortionTime := gp.distortionTime + gp.mouseDistortionDecay
      cycle := gp.cycle + gp.speed }
  | _, _ => gp

/-- Source `update(mouse)`: `moveNoise`, then — only with mouse interaction and a live
group — retarget `move.x`/`move.y` and ease the group position/rotation. -/
def GroundPlain.update (mi : Bool) (sq : ℚ → ℚ) (waveOffsetY : ℚ)
    (gp : GroundPlain) (mouse : ℚ × ℚ) : GroundPlain :=
  let gp := GroundPlain.moveNoise mi sq gp mouse
  if mi = true then
    match gp.group with
    | some (pos, rot) =>
      let move : Vec3 := ⟨-(mouse.1 * 0.04), waveOffsetY + mouse.2 * 0.04, gp.move.z⟩
      { gp with
        move := move
        group := some (addEase pos move gp.ease, addEaseEuler rot gp.look gp.ease) }
    | none => gp
  else gp

/-- Vertex layout of the external library's `PlaneGeometry(width, height,
gridX, gridY)`: a `(gridX+1) × (gridY+1)` grid in row-major order, x spanning
`[-width/2, width/2]`, y spanning `[height/2, -height/2]`, z = 0. -/
def planeGridVertex (width height : ℚ) (gridX gridY : Nat) (i : Nat) : ℚ × ℚ × ℚ :=
  let ix := i % (gridX + 1)
  let iy := i / (gridX + 1)
  ((ix : ℚ) * (width / (gridX : ℚ)) - width / 2,
   height / 2 - (iy : ℚ) * (height / (gridY : ℚ)), 0)

/-- Source `create(scene)`: allocate group/geometry/material/plane, snapshot the
original positions, install the noise function (`createNoise2D()`), then run
one `moveNoise({x: 0, y: 0})`.  `geomPos`/`geomCount` are the vertex buffer and
count produced by the external geometry constructor. -/
def GroundPlain.create (mi : Bool) (sq : ℚ → ℚ) (noise : ℚ → ℚ → ℚ)
    (geomPos : Nat → ℚ × ℚ × ℚ) (geomCount : Nat) (gp : GroundPlain) : GroundPlain :=
  let gp := { gp with
    group := some (gp.move, gp.look)
    geometry := some ()
    originalPositions := geomPos
    count := geomCount
    positions := geomPos
    material := some ()
    plane := some ()
    simplex := some noise }
  GroundPlain.moveNoise mi sq gp (0, 0)

/-- Source `dispose()`: release geometry/material, detach the plane, null every
handle, clear the `_originalPositions` snapshot (`new Float32Array()`). -/
def GroundPlain.dispose (gp : GroundPlain) : GroundPlain :=
  { gp with
    plane := none
    geometry := none
    material := none
    simplex := none
    group := none
    originalPositions := fun _ => (0, 0, 0)
    count := 0 }

/-- Component-level state of `AnimatedWaveComponent`: the Three.js handles
(`none` = `null`), the cached pointer, the `webGLFailed` flag, and booleans
tracking the window listeners and whether the renderer's canvas is attached to
the container. -/
structure CompState where
  scene : Option Unit
  camera : Option Unit
  renderer : Option Unit
  animationFrameId : Option Nat
  mouse : ℚ × ℚ
  pointLight : Option Unit
  groundPlain : Option GroundPlain
  webGLFailed : Bool
  mousemoveRegistered : Bool
  resizeRegistered : Bool
  canvasInContainer : Bool

/-- Field initialisers of a freshly constructed component. -/
def initComp : CompState where
  scene := none
  camera := none
  renderer := none
  animationFrameId := none
  mouse := (0, 0)
  pointLight := none
  groundPlain := none
  webGLFailed := false
  mousemoveRegistered := false
  resizeRegistered := false
  canvasInContainer := false

/-- Source `setupScene()` (the `rebuild = false` path).  `rendererResult` is the
outcome of `new THREE.WebGLRenderer(...)` — `.error` models the constructor
throwing; the `try`/`catch` appears as the match, so the function always
returns a state (the exception never propagates).  On success the final match
is the guard at the head of `animate()`, whose first invocation runs
synchronously; `some 1` models the `requestAnimationFrame` id it stores. -/
def setupScene (cfg : WaveConfig) (rendererResult : Except String Unit)
    (noise : ℚ → ℚ → ℚ) (sq : ℚ → ℚ) (piRat w h : ℚ)
    (containerPresent : Bool) (st : CompState) : CompState :=
  if containerPresent = true then
    let st := { st with scene := some (), camera := some () }
    match rendererResult with
    | .error _ => { st with webGLFailed := true }
    | .ok _ =>
      let st := { st with renderer := some (), canvasInContainer := true,
                          webGLFailed := false }
      let st := { st with pointLight := some () }
      let settings := getQualitySettings cfg.quality
      let gp := GroundPlain.create cfg.mouseInteraction sq noise
        (planeGridVertex 4000 2000 settings.1 settings.2)
        ((settings.1 + 1) * (settings.2 + 1))
        (createGroundPlain piRat cfg)
      let st := { st with groundPlain := some gp }
      let st := { st with mouse := (screenCenterX w, screenCenterY h) }
      let st := { st with mousemoveRegistered := cfg.mouseInteraction,
                          resizeRegistered := true }
      match st.scene, st.camera, st.renderer, st.groundPlain with
      | some _, some _, some _, some gpLive =>
        { st with
          groundPlain := some (GroundPlain.update cfg.mouseInteraction sq
            cfg.waveOffsetY gpLive st.mouse)
          animationFrameId := some 1 }
      | _, _, _, _ => st
  else st

/-- Source `container.removeChild(canvas)`: the one DOM operation in teardown that
throws when the node is not a child. -/
def removeChild (contained : Bool) : Except String Unit :=
  if contained = true then .ok () else .error "NotFoundError"

/-- Source `cleanupScene()`: remove the listeners (the mousemove one only when
`mouseInteraction` is set, mirroring the source guard), cancel the pending
animation frame, dispose the engine and null it, clear the scene, dispose the
renderer and detach its canvas (guarded by `contains`), and null every handle.
`Except` surfaces any DOM error; the guards ensure `.ok`. -/
def cleanupScene (mi : Bool) (st : CompState) : Except String CompState := do
  let mousemove := if mi = true then false else st.mousemoveRegistered
  let _disposed := st.groundPlain.map GroundPlain.dispose
  let canvasIn ←
    match st.renderer with
    | some _ =>
      if st.canvasInContainer = true then do
        let _ ← removeChild st.canvasInContainer
        pure false
      else pure st.canvasInContainer
    | none => pure st.canvasInContainer
  pure { st with
    mousemoveRegistered := mousemove
    resizeRegistered := false
    groundPlain := none
    scene := none
    camera := none
    renderer := none
    animationFrameId := none
    pointLight := none
    canvasInContainer := canvasIn }

/-- The per-vertex write of the `moveNoise` loop, as a standalone function of
the pre-call state (definitionally the `positions` buffer installed by
`GroundPlain.moveNoise` on a live engine). -/
def moveNoisePositions (mi : Bool) (sq : ℚ → ℚ) (simplex : ℚ → ℚ → ℚ)
    (gp : GroundPlain) (mouse : ℚ × ℚ) : Nat → ℚ × ℚ × ℚ := fun i =>
  let currentMouseX := if mi = true then mouse.1 else 0
  let currentMouseY := if mi = true then mouse.2 else 0
  let distortionTime := gp.distortionTime + gp.mouseDistortionDecay
  if i < gp.count then
    let originalX := (gp.originalPositions i).1
    let originalY := (gp.originalPositions i).2.1
    let zWave := simplex (originalX / gp.factor)
      (originalY / gp.factor + gp.cycle) * gp.scale
    let zOffset :=
      if mi = true ∧ 0 < gp.mouseDistortionStrength then
        let distX := originalX - currentMouseX * 0.5
        let distY := originalY - currentMouseY * 0.5
        let dist := sq (distX * distX + distY * distY)
        let t := distortionTime * 1000
        let ripple := simplex (distX / gp.mouseDistortionSmoothness + t)
          (distY / gp.mouseDistortionSmoothness - t) * gp.mouseDistortionStrength
        let zFalloff := max 0 (1 - dist / (gp.mouseShrinkScaleRadius * 2))
        zWave + ripple * gp.scale * zFalloff
      else zWave
    let newXY :=
      if mi = true ∧ 0 < gp.mouseShrinkScaleStrength then
        let dx := originalX - currentMouseX
        let dy := originalY - currentMouseY
        let d := sq (dx * dx + dy * dy)
        let falloff := shrinkFalloff gp.mouseShrinkScaleRadius d
        let shrinkAmount := gp.mouseShrinkScaleStrength * falloff
        (originalX - dx * shrinkAmount, originalY - dy * shrinkAmount)
      else (originalX, originalY)
    (newXY.1, newXY.2, zOffset)
  else gp.positions i

/-- The base-wave height of claim C2: `noise2D(ox/factor, oy/factor + cycle) *
amplitude`. -/
def baseWave (simplex : ℚ → ℚ → ℚ) (factor cycle scale ox oy : ℚ) : ℚ :=
  simplex (ox / factor) (oy / factor + cycle) * scale

/-- The pointer-ripple addition of `moveNoise` (`ripple * scale * zFalloff`) as
a function of the sampled time offset `t`. -/
def rippleAdd (simplex : ℚ → ℚ → ℚ) (sq : ℚ → ℚ)
    (smoothness strength scale radius t ox oy cmx cmy : ℚ) : ℚ :=
  simplex ((ox - cmx * 0.5) / smoothness + t) ((oy - cmy * 0.5) / smoothness - t)
      * strength * scale
    * max 0 (1 - sq ((ox - cmx * 0.5) * (ox - cmx * 0.5)
        + (oy - cmy * 0.5) * (oy - cmy * 0.5)) / (radius * 2))

theorem moveNoise_eq (mi : Bool) (sq : ℚ → ℚ) (f : ℚ → ℚ → ℚ) (gp : GroundPlain)
    (m : ℚ × ℚ) (hg : gp.geometry = some ()) (hs : gp.simplex = some f) :
    gp.moveNoise mi sq m =
      { gp with
        positions := moveNoisePositions mi sq f gp m
        distortionTime := gp.distortionTime + gp.mouseDistortionDecay
        cycle := gp.cycle + gp.speed } := by
  unfold GroundPlain.moveNoise
  rw [hg, hs]
  rfl

theorem moveNoise_statics (mi : Bool) (sq : ℚ → ℚ) (f : ℚ → ℚ → ℚ)
    (gp : GroundPlain) (m : ℚ × ℚ) (hg : gp.geometry = some ())
    (hs : gp.simplex = some f) :
    (gp.moveNoise mi sq m).geometry = gp.geometry
    ∧ (gp.moveNoise mi sq m).simplex = gp.simplex
    ∧ (gp.moveNoise mi sq m).factor = gp.factor
    ∧ (gp.moveNoise mi sq m).scale = gp.scale
    ∧ (gp.moveNoise mi sq m).speed = gp.speed
    ∧ (gp.moveNoise mi sq m).count = gp.count
    ∧ (gp.moveNoise mi sq m).originalPositions = gp.originalPositions
    ∧ (gp.moveNoise mi sq m).cycle = gp.cycle + gp.speed
    ∧ (gp.moveNoise mi sq m).distortionTime
        = gp.distortionTime + gp.mouseDistortionDecay := by
  rw [moveNoise_eq mi sq f gp m hg hs]
  exact ⟨rfl, rfl, rfl, rfl, rfl, rfl, rfl, rfl, rfl⟩

theorem moveNoisePositions_false (sq : ℚ → ℚ) (f : ℚ → ℚ → ℚ)
    (gp : GroundPlain) (m : ℚ × ℚ) (i : Nat) :
    moveNoisePositions false sq f gp m i =
      if i < gp.count then
        ((gp.originalPositions i).1, (gp.originalPositions i).2.1,
         baseWave f gp.factor gp.cycle gp.scale (gp.originalPositions i).1
           (gp.originalPositions i).2.1)
      else gp.positions i := by
  unfold moveNoisePositions baseWave
  split
  · simp
  · rfl

theorem moveNoise_z (mi : Bool) (sq : ℚ → ℚ) (f : ℚ → ℚ → ℚ) (gp : GroundPlain)
    (m : ℚ × ℚ) (i : Nat) (hg : gp.geometry = some ()) (hs : gp.simplex = some f)
    (hi : i < gp.count) :
    ((gp.moveNoise mi sq m).positions i).2.2 =
      baseWave f gp.factor gp.cycle gp.scale (gp.originalPositions i).1
        (gp.originalPositions i).2.1
      + (if mi = true ∧ 0 < gp.mouseDistortionStrength then
          rippleAdd f sq gp.mouseDistortionSmoothness gp.mouseDistortionStrength
            gp.scale gp.mouseShrinkScaleRadius
            ((gp.distortionTime + gp.mouseDistortionDecay) * 1000)
            (gp.originalPositions i).1 (gp.originalPositions i).2.1
            (if mi = true then m.1 else 0) (if mi = true then m.2 else 0)
         else 0) := by
  rw [moveNoise_eq mi sq f gp m hg hs]
  unfold moveNoisePositions baseWave rippleAdd
  dsimp only
  rw [if_pos hi]
  dsimp only
  split_ifs <;> ring

theorem moveNoise_xy (sq : ℚ → ℚ) (f : ℚ → ℚ → ℚ) (gp : GroundPlain)
    (m : ℚ × ℚ) (i : Nat) (hg : gp.geometry = some ()) (hs : gp.simplex = some f)
    (hi : i < gp.count) (hstr : 0 < gp.mouseShrinkScaleStrength) :
    ((gp.moveNoise true sq m).positions i).1 =
      (gp.originalPositions i).1 - ((gp.originalPositions i).1 - m.1)
        * (gp.mouseShrinkScaleStrength * shrinkFalloff gp.mouseShrinkScaleRadius
            (sq (((gp.originalPositions i).1 - m.1) * ((gp.originalPositions i).1 - m.1)
              + ((gp.originalPositions i).2.1 - m.2) * ((gp.originalPositions i).2.1 - m.2))))
    ∧ ((gp.moveNoise true sq m).positions i).2.1 =
      (gp.originalPositions i).2.1 - ((gp.originalPositions i).2.1 - m.2)
        * (gp.mouseShrinkScaleStrength * shrinkFalloff gp.mouseShrinkScaleRadius
            (sq (((gp.originalPositions i).1 - m.1) * ((gp.originalPositions i).1 - m.1)
              + ((gp.originalPositions i).2.1 - m.2) * ((gp.originalPositions i).2.1 - m.2)))) := by
  rw [moveNoise_eq true sq f gp m hg hs]
  unfold moveNoisePositions
  dsimp only
  rw [if_pos hi]
  rw [if_pos (⟨rfl, hstr⟩ : true = true ∧ 0 < gp.mouseShrinkScaleStrength)]
  exact ⟨rfl, rfl⟩

theorem update_false (sq : ℚ → ℚ) (waveOffsetY : ℚ) (gp : GroundPlain)
    (m : ℚ × ℚ) :
    GroundPlain.update false sq waveOffsetY gp m = gp.moveNoise false sq m := by
  unfold GroundPlain.update
  simp

/-- A concrete noise sample used by the executable witnesses. -/
def noiseEx : ℚ → ℚ → ℚ := fun x y => x + 2 * y

/-- A concrete stand-in for `Math.sqrt` used by the executable witnesses (the
engine treats the square root as an opaque host primitive). -/
def sqEx : ℚ → ℚ := fun q => q

/-- A concrete live engine state with a single vertex at the origin, carrying
the component's default tuning values. -/
def gpEx : GroundPlain where
  group := some (⟨0, -300, -1000⟩, ⟨0, 0, 0⟩)
  geometry := some ()
  material := some ()
  plane := some ()
  simplex := some noiseEx
  factor := 300
  scale := 30
  speed := 0.015
  cycle := 0
  ease := 12
  move := ⟨0, -300, -1000⟩
  look := ⟨0, 0, 0⟩
  mouseDistortionStrength := 0.5
  mouseDistortionSmoothness := 100
  mouseDistortionDecay := 0.0005
  distortionTime := 0
  mouseShrinkScaleStrength := 0.7
  mouseShrinkScaleRadius := 200
  originalPositions := fun _ => (0, 0, 0)
  count := 1
  positions := fun _ => (0, 0, 0)

/-- The configuration of claim C1: `{quality: 'low', mouseInteraction: false,
speed: 0.015, amplitude: 30}` (remaining inputs at their defaults). -/
def cfgC1 : WaveConfig :=
  { speed := 0.015, amplitude := 30, mouseInteraction := false, quality := .low }

/-- The engine right after mounting with `cfgC1`: `createGroundPlain()`
followed by `create(scene)` (which itself runs `moveNoise({x:0,y:0})` once). -/
def mountLow (noise : ℚ → ℚ → ℚ) (sq : ℚ → ℚ) (piRat : ℚ) : GroundPlain :=
  let settings := getQualitySettings cfgC1.quality
  GroundPlain.create cfgC1.mouseInteraction sq noise
    (planeGridVertex 4000 2000 settings.1 settings.2)
    ((settings.1 + 1) * (settings.2 + 1))
    (createGroundPlain piRat cfgC1)

/-- One animation tick under `cfgC1`: the `animate()` body's
`groundPlain.update(mouse)` call. -/
def tickLow (sq : ℚ → ℚ) (mouse : ℚ × ℚ) (gp : GroundPlain) : GroundPlain :=
  GroundPlain.update cfgC1.mouseInteraction sq cfgC1.waveOffsetY gp mouse

/-- The engine after mounting with `cfgC1` and then simulating `n` animation
ticks (the first tick being the synchronous `animate()` call in
`setupScene`). -/
def afterTicksLow (noise : ℚ → ℚ → ℚ) (sq : ℚ → ℚ) (piRat : ℚ)
    (mouse : ℚ × ℚ) (n : Nat) : GroundPlain :=
  (tickLow sq mouse)^[n] (mountLow noise sq piRat)

/-- The engine state built inside `create` before its `moveNoise` call, under
`cfgC1` (low quality: a 65 × 33 vertex grid). -/
def createdLow (noise : ℚ → ℚ → ℚ) (piRat : ℚ) : GroundPlain :=
  { createGroundPlain piRat cfgC1 with
    group := some ((createGroundPlain piRat cfgC1).move, (createGroundPlain piRat cfgC1).look)
    geometry := some ()
    originalPositions := planeGridVertex 4000 2000 64 32
    count := 2145
    positions := planeGridVertex 4000 2000 64 32
    material := some ()
    plane := some ()
    simplex := some noise }

theorem mountLow_eq (noise : ℚ → ℚ → ℚ) (sq : ℚ → ℚ) (piRat : ℚ) :
    mountLow noise sq piRat =
      GroundPlain.moveNoise false sq (createdLow noise piRat) (0, 0) := rfl

theorem tickLow_eq (sq : ℚ → ℚ) (m : ℚ × ℚ) (gp : GroundPlain) :
    tickLow sq m gp = gp.moveNoise false sq m :=
  update_false sq cfgC1.waveOffsetY gp m

theorem afterTicksLow_invariant (noise : ℚ → ℚ → ℚ) (sq : ℚ → ℚ) (piRat : ℚ)
    (mouse : ℚ × ℚ) (n : Nat) :
    (afterTicksLow noise sq piRat mouse n).geometry = some ()
    ∧ (afterTicksLow noise sq piRat mouse n).simplex = some noise
    ∧ (afterTicksLow noise sq piRat mouse n).factor = 300
    ∧ (afterTicksLow noise sq piRat mouse n).scale = 30
    ∧ (afterTicksLow noise sq piRat mouse n).speed = 0.015
    ∧ (afterTicksLow noise sq piRat mouse n).count = 2145
    ∧ (afterTicksLow noise sq piRat mouse n).originalPositions
        = planeGridVertex 4000 2000 64 32
    ∧ (afterTicksLow noise sq piRat mouse n).cycle = 0.015 * (n + 1) := by
  induction n with
  | zero =>
    have h0 : afterTicksLow noise sq piRat mouse 0
        = GroundPlain.moveNoise false sq (createdLow noise piRat) (0, 0) :=
      mountLow_eq noise sq piRat
    obtain ⟨e1, e2, e3, e4, e5, e6, e7, e8, -⟩ :=
      moveNoise_statics false sq noise (createdLow noise piRat) (0, 0) rfl rfl
    rw [h0]
    refine ⟨?_, ?_, ?_, ?_, ?_, ?_, ?_, ?_⟩
    · rw [e1]; rfl
    · rw [e2]; rfl
    · rw [e3]; rfl
    · rw [e4]; rfl
    · rw [e5]; rfl
    · rw [e6]; rfl
    · rw [e7]; rfl
    · rw [e8]; norm_num [createdLow, createGroundPlain, cfgC1]
  | succ n ih =>
    obtain ⟨hg, hs, hfac, hsc, hsp, hcnt, horig, hcyc⟩ := ih
    have hsucc : afterTicksLow noise sq piRat mouse (n + 1)
        = GroundPlain.moveNoise false sq (afterTicksLow noise sq piRat mouse n)
            mouse := by
      have hit : afterTicksLow noise sq piRat mouse (n + 1)
          = tickLow sq mouse (afterTicksLow noise sq piRat mouse n) := by
        unfold afterTicksLow
        exact Function.iterate_succ_apply' (tickLow sq mouse) n (mountLow noise sq piRat)
      rw [hit, tickLow_eq]
    obtain ⟨e1, e2, e3, e4, e5, e6, e7, e8, -⟩ :=
      moveNoise_statics false sq noise (afterTicksLow noise sq piRat mouse n)
        mouse hg hs
    rw [hsucc]
    refine ⟨?_, ?_, ?_, ?_, ?_, ?_, ?_, ?_⟩
    · rw [e1, hg]
    · rw [e2, hs]
    · rw [e3, hfac]
    · rw [e4, hsc]
    · rw [e5, hsp]
    · rw [e6, hcnt]
    · rw [e7, horig]
    · rw [e8, hcyc, hsp]; push_cast; ring

/-- C1 (counterexample): mounting with `{quality: low, mouseInteraction: false,
speed: 0.015, amplitude: 30}` and simulating exactly 10 animation ticks leaves
`cycle` at 0.165, not 0.15 as claimed — `create` itself already runs one
`moveNoise`, so 11 increments of 0.015 have happened.  Concrete noise/sqrt
samples, pointer at the origin. -/
theorem c1_cycle_counterexample :
    (afterTicksLow noiseEx sqEx 0 (0, 0) 10).cycle = 0.165
    ∧ (afterTicksLow noiseEx sqEx 0 (0, 0) 10).cycle ≠ 0.15 := by
  have h := (afterTicksLow_invariant noiseEx sqEx 0 (0, 0) 10).2.2.2.2.2.2.2
  refine ⟨?_, ?_⟩ <;> rw [h] <;> norm_num

/-- C1 (amended): after mounting with `{quality: low, mouseInteraction: false,
speed: 0.015, amplitude: 30}` (whose `create` step runs `moveNoise` once,
advancing `cycle` from 0 to 0.015) and then simulating exactly 10 animation
ticks, `cycle` equals 0.165, and the z coordinate of the vertex with original
planar coordinates (0, 0) equals `noise2D(0, 0.15) * 30` — the height is
sampled with the `cycle` value the final tick saw before its own increment. -/
theorem c1_mount_ten_ticks (noise : ℚ → ℚ → ℚ) (sq : ℚ → ℚ) (piRat : ℚ)
    (mouse : ℚ × ℚ) (i : Nat) (hi : i < 2145)
    (h0 : planeGridVertex 4000 2000 64 32 i = (0, 0, 0)) :
    (afterTicksLow noise sq piRat mouse 10).cycle = 0.165
    ∧ ((afterTicksLow noise sq piRat mouse 10).positions i).2.2
        = noise 0 0.15 * 30 := by
  obtain ⟨hg, hs, hfac, hsc, hsp, hcnt, horig, hcyc⟩ :=
    afterTicksLow_invariant noise sq piRat mouse 9
  have hcyc9 : (afterTicksLow noise sq piRat mouse 9).cycle = 0.15 := by
    rw [hcyc]; norm_num
  have hsucc : afterTicksLow noise sq piRat mouse 10
      = GroundPlain.moveNoise false sq (afterTicksLow noise sq piRat mouse 9)
          mouse := by
    have hit : afterTicksLow noise sq piRat mouse 10
        = tickLow sq mouse (afterTicksLow noise sq piRat mouse 9) := by
      unfold afterTicksLow
      exact Function.iterate_succ_apply' (tickLow sq mouse) 9 (mountLow noise sq piRat)
    rw [hit, tickLow_eq]
  constructor
  · obtain ⟨-, -, -, -, -, -, -, e8, -⟩ :=
      moveNoise_statics false sq noise (afterTicksLow noise sq piRat mouse 9)
        mouse hg hs
    rw [hsucc, e8, hcyc9, hsp]
    norm_num
  · have hp := moveNoisePositions_false sq noise
      (afterTicksLow noise sq piRat mouse 9) mouse i
    rw [hcnt, horig, h0, hfac, hsc, hcyc9] at hp
    rw [if_pos hi] at hp
    rw [hsucc, moveNoise_eq false sq noise (afterTicksLow noise sq piRat mouse 9)
      mouse hg hs]
    dsimp only
    rw [hp]
    norm_num [baseWave]

/-- C1 (witness): the amended statement evaluated at the concrete grid index
1072 — the unique vertex of the low-quality 65 × 33 grid sitting at planar
(0, 0) — with concrete noise and sqrt samples. -/
theorem c1_witness :
    1072 < 2145
    ∧ planeGridVertex 4000 2000 64 32 1072 = (0, 0, 0)
    ∧ (afterTicksLow noiseEx sqEx 0 (500, 300) 10).cycle = 0.165
    ∧ ((afterTicksLow noiseEx sqEx 0 (500, 300) 10).positions 1072).2.2
        = noiseEx 0 0.15 * 30 :=
  ⟨by decide, by norm_num [planeGridVertex],
   (c1_mount_ten_ticks noiseEx sqEx 0 (500, 300) 1072 (by decide)
     (by norm_num [planeGridVertex])).1,
   (c1_mount_ten_ticks noiseEx sqEx 0 (500, 300) 1072 (by decide)
     (by norm_num [planeGridVertex])).2⟩

/-- C2: for every vertex `i` with original planar coordinates `(ox, oy)`,
`moveNoise` sets the vertex height to `noise2D(ox/factor, oy/factor + cycle) *
amplitude` plus a pointer term, and the pointer term vanishes when mouse
interaction is off or the distortion strength is non-positive. -/
theorem c2_base_wave (mi : Bool) (sq : ℚ → ℚ) (f : ℚ → ℚ → ℚ)
    (gp : GroundPlain) (m : ℚ × ℚ) (i : Nat) (hg : gp.geometry = some ())
    (hs : gp.simplex = some f) (hi : i < gp.count) :
    ∃ pointerTerm : ℚ,
      ((gp.moveNoise mi sq m).positions i).2.2 =
        f ((gp.originalPositions i).1 / gp.factor)
          ((gp.originalPositions i).2.1 / gp.factor + gp.cycle) * gp.scale
        + pointerTerm
      ∧ (mi = false → pointerTerm = 0)
      ∧ (gp.mouseDistortionStrength ≤ 0 → pointerTerm = 0) := by
  refine ⟨(if mi = true ∧ 0 < gp.mouseDistortionStrength then
      rippleAdd f sq gp.mouseDistortionSmoothness gp.mouseDistortionStrength
        gp.scale gp.mouseShrinkScaleRadius
        ((gp.distortionTime + gp.mouseDistortionDecay) * 1000)
        (gp.originalPositions i).1 (gp.originalPositions i).2.1
        (if mi = true then m.1 else 0) (if mi = true then m.2 else 0)
    else 0), ?_, ?_, ?_⟩
  · rw [moveNoise_z mi sq f gp m i hg hs hi]
    rfl
  · intro hmi
    subst hmi
    simp
  · intro hle
    rw [if_neg (fun hc => absurd hc.2 (not_lt.mpr hle))]

/-- C2 (witness): the base-wave decomposition evaluated on the concrete
one-vertex engine with mouse interaction off. -/
theorem c2_witness :
    0 < gpEx.count
    ∧ ∃ pointerTerm : ℚ,
        ((gpEx.moveNoise false sqEx (7, 9)).positions 0).2.2 =
          noiseEx ((gpEx.originalPositions 0).1 / gpEx.factor)
            ((gpEx.originalPositions 0).2.1 / gpEx.factor + gpEx.cycle) * gpEx.scale
          + pointerTerm
        ∧ (false = false → pointerTerm = 0)
        ∧ (gpEx.mouseDistortionStrength ≤ 0 → pointerTerm = 0) :=
  ⟨by decide, c2_base_wave false sqEx noiseEx gpEx (7, 9) 0 rfl rfl (by decide)⟩

/-- C3: with `mouseInteraction = false` the result of `moveNoise` is
independent of the pointer argument, and every vertex keeps its original
planar position with z equal to the pure base-wave term. -/
theorem c3_pointer_independence (sq : ℚ → ℚ) (f : ℚ → ℚ → ℚ)
    (gp : GroundPlain) (m mAlt : ℚ × ℚ) (i : Nat) (hg : gp.geometry = some ())
    (hs : gp.simplex = some f) (hi : i < gp.count) :
    gp.moveNoise false sq m = gp.moveNoise false sq mAlt
    ∧ (gp.moveNoise false sq m).positions i =
        ((gp.originalPositions i).1, (gp.originalPositions i).2.1,
         f ((gp.originalPositions i).1 / gp.factor)
           ((gp.originalPositions i).2.1 / gp.factor + gp.cycle) * gp.scale) := by
  constructor
  · have hpos : moveNoisePositions false sq f gp m
        = moveNoisePositions false sq f gp mAlt := by
      funext j
      rw [moveNoisePositions_false sq f gp m j,
        moveNoisePositions_false sq f gp mAlt j]
    rw [moveNoise_eq false sq f gp m hg hs,
      moveNoise_eq false sq f gp mAlt hg hs, hpos]
  · rw [moveNoise_eq false sq f gp m hg hs]
    dsimp only
    rw [moveNoisePositions_false sq f gp m i, if_pos hi]
    rfl

/-- C3 (witness): pointer independence evaluated on the concrete one-vertex
engine at the pointer pair (1, 2) versus (3, 4). -/
theorem c3_witness :
    gpEx.moveNoise false sqEx (1, 2) = gpEx.moveNoise false sqEx (3, 4)
    ∧ (gpEx.moveNoise false sqEx (1, 2)).positions 0 =
        ((gpEx.originalPositions 0).1, (gpEx.originalPositions 0).2.1,
         noiseEx ((gpEx.originalPositions 0).1 / gpEx.factor)
           ((gpEx.originalPositions 0).2.1 / gpEx.factor + gpEx.cycle)
           * gpEx.scale) :=
  c3_pointer_independence sqEx noiseEx gpEx (1, 2) (3, 4) 0 rfl rfl (by decide)

/-- C4: the shrink falloff is exactly 1 at distance 0, exactly 0 at and beyond
the radius, `(1 - d/radius)^2` below the radius, monotonically decreasing, and
each affected vertex's planar position is the original minus
`(dx, dy) * strength * falloff`. -/
theorem c4_shrink (radius : ℚ) (hr : 0 < radius) :
    shrinkFalloff radius 0 = 1
    ∧ (∀ d, radius ≤ d → shrinkFalloff radius d = 0)
    ∧ (∀ d, 0 ≤ d → d < radius → shrinkFalloff radius d = (1 - d / radius) ^ 2)
    ∧ (∀ d₁ d₂, 0 ≤ d₁ → d₁ ≤ d₂ →
        shrinkFalloff radius d₂ ≤ shrinkFalloff radius d₁)
    ∧ (∀ (sq : ℚ → ℚ) (f : ℚ → ℚ → ℚ) (gp : GroundPlain) (m : ℚ × ℚ) (i : Nat),
        gp.geometry = some () → gp.simplex = some f → i < gp.count →
        gp.mouseShrinkScaleRadius = radius → 0 < gp.mouseShrinkScaleStrength →
        ((gp.moveNoise true sq m).positions i).1 =
          (gp.originalPositions i).1 - ((gp.originalPositions i).1 - m.1)
            * (gp.mouseShrinkScaleStrength * shrinkFalloff radius
                (sq (((gp.originalPositions i).1 - m.1)
                      * ((gp.originalPositions i).1 - m.1)
                  + ((gp.originalPositions i).2.1 - m.2)
                      * ((gp.originalPositions i).2.1 - m.2))))
        ∧ ((gp.moveNoise true sq m).positions i).2.1 =
          (gp.originalPositions i).2.1 - ((gp.originalPositions i).2.1 - m.2)
            * (gp.mouseShrinkScaleStrength * shrinkFalloff radius
                (sq (((gp.originalPositions i).1 - m.1)
                      * ((gp.originalPositions i).1 - m.1)
                  + ((gp.originalPositions i).2.1 - m.2)
                      * ((gp.originalPositions i).2.1 - m.2))))) := by
  refine ⟨?_, ?_, ?_, ?_, ?_⟩
  · unfold shrinkFalloff
    rw [if_pos hr]
    norm_num
  · intro d hd
    unfold shrinkFalloff
    rw [if_neg (not_lt.mpr hd)]
  · intro d _ hd
    unfold shrinkFalloff
    rw [if_pos hd]
  · intro d₁ d₂ h1 h12
    unfold shrinkFalloff
    split_ifs with ha hb hb
    · have hd2 : 0 ≤ 1 - d₂ / radius := by
        rw [sub_nonneg]
        exact (div_le_one hr).mpr ha.le
      have hdiv : d₁ / radius ≤ d₂ / radius := by gcongr
      exact pow_le_pow_left₀ hd2 (by linarith) 2
    · exact absurd (lt_of_le_of_lt h12 ha) hb
    · positivity
    · exact le_refl 0
  · intro sq f gp m i hg hs hi hrad hstr
    have h := moveNoise_xy sq f gp m i hg hs hi hstr
    rw [hrad] at h
    exact h

/-- C4 (witness): the falloff properties at radius 200 and the planar update
on the concrete engine with the pointer at (30, 40). -/
theorem c4_witness :
    (0 : ℚ) < 200
    ∧ shrinkFalloff 200 0 = 1
    ∧ shrinkFalloff 200 250 = 0
    ∧ shrinkFalloff 200 100 = (1 - 100 / 200) ^ 2
    ∧ shrinkFalloff 200 150 ≤ shrinkFalloff 200 50
    ∧ ((gpEx.moveNoise true sqEx (30, 40)).positions 0).1 =
        (gpEx.originalPositions 0).1 - ((gpEx.originalPositions 0).1 - 30)
          * (gpEx.mouseShrinkScaleStrength * shrinkFalloff 200
              (sqEx (((gpEx.originalPositions 0).1 - 30)
                    * ((gpEx.originalPositions 0).1 - 30)
                + ((gpEx.originalPositions 0).2.1 - 40)
                    * ((gpEx.originalPositions 0).2.1 - 40)))) := by
  have h := c4_shrink 200 (by norm_num)
  exact ⟨by norm_num, h.1, h.2.1 250 (by norm_num),
    h.2.2.1 100 (by norm_num) (by norm_num),
    h.2.2.2.1 50 150 (by norm_num) (by norm_num),
    (h.2.2.2.2 sqEx noiseEx gpEx (30, 40) 0 rfl rfl (by decide) rfl
      (by norm_num [gpEx])).1⟩

/-- C5 (counterexample): the source increments `distortionTime` *before* the
vertex loop, so the ripple samples the post-increment clock; a variant
(`moveNoiseSpecOrder`, the spec's wording) that increments after the loop
produces a different height for the concrete one-vertex engine with the
pointer at the origin: -7.5 versus 0. -/
theorem c5_counterexample :
    ((gpEx.moveNoise true sqEx (0, 0)).positions 0).2.2
      ≠ ((GroundPlain.moveNoiseSpecOrder true sqEx gpEx (0, 0)).positions 0).2.2 := by
  have h1 : ((gpEx.moveNoise true sqEx (0, 0)).positions 0).2.2 = -7.5 := by
    norm_num [GroundPlain.moveNoise, gpEx, noiseEx, sqEx, shrinkFalloff, max_def]
  have h2 : ((GroundPlain.moveNoiseSpecOrder true sqEx gpEx (0, 0)).positions 0).2.2
      = 0 := by
    norm_num [GroundPlain.moveNoiseSpecOrder, gpEx, noiseEx, sqEx, shrinkFalloff,
      max_def]
  rw [h1, h2]
  norm_num

/-- C5 (amended): every `moveNoise` call advances `cycle` by `speed` exactly
once (after the vertex loop) and `distortionTime` by `mouseDistortionDecay`
exactly once (before the vertex loop), regardless of vertex count;
consequently the ripple term samples `t = (distortionTime +
mouseDistortionDecay) * 1000`, the value from *after* the call's own
increment. -/
theorem c5_phase_advance (mi : Bool) (sq : ℚ → ℚ) (f : ℚ → ℚ → ℚ)
    (gp : GroundPlain) (m : ℚ × ℚ) (i : Nat) (hg : gp.geometry = some ())
    (hs : gp.simplex = some f) (hi : i < gp.count)
    (hstr : 0 < gp.mouseDistortionStrength) :
    (gp.moveNoise mi sq m).cycle = gp.cycle + gp.speed
    ∧ (gp.moveNoise mi sq m).distortionTime
        = gp.distortionTime + gp.mouseDistortionDecay
    ∧ ((gp.moveNoise true sq m).positions i).2.2 =
        baseWave f gp.factor gp.cycle gp.scale (gp.originalPositions i).1
          (gp.originalPositions i).2.1
        + rippleAdd f sq gp.mouseDistortionSmoothness gp.mouseDistortionStrength
            gp.scale gp.mouseShrinkScaleRadius
            ((gp.distortionTime + gp.mouseDistortionDecay) * 1000)
            (gp.originalPositions i).1 (gp.originalPositions i).2.1 m.1 m.2 := by
  obtain ⟨-, -, -, -, -, -, -, e8, e9⟩ := moveNoise_statics mi sq f gp m hg hs
  refine ⟨e8, e9, ?_⟩
  rw [moveNoise_z true sq f gp m i hg hs hi,
    if_pos (⟨rfl, hstr⟩ : true = true ∧ 0 < gp.mouseDistortionStrength)]
  simp

/-- C5 (witness): the amended statement evaluated on the concrete one-vertex
engine with the pointer at (50, 60). -/
theorem c5_witness :
    0 < gpEx.count
    ∧ 0 < gpEx.mouseDistortionStrength
    ∧ ((gpEx.moveNoise true sqEx (50, 60)).cycle = gpEx.cycle + gpEx.speed
      ∧ (gpEx.moveNoise true sqEx (50, 60)).distortionTime
          = gpEx.distortionTime + gpEx.mouseDistortionDecay
      ∧ ((gpEx.moveNoise true sqEx (50, 60)).positions 0).2.2 =
          baseWave noiseEx gpEx.factor gpEx.cycle gpEx.scale
            (gpEx.originalPositions 0).1 (gpEx.originalPositions 0).2.1
          + rippleAdd noiseEx sqEx gpEx.mouseDistortionSmoothness
              gpEx.mouseDistortionStrength gpEx.scale gpEx.mouseShrinkScaleRadius
              ((gpEx.distortionTime + gpEx.mouseDistortionDecay) * 1000)
              (gpEx.originalPositions 0).1 (gpEx.originalPositions 0).2.1 50 60) :=
  ⟨by decide, by norm_num [gpEx],
   c5_phase_advance true sqEx noiseEx gpEx (50, 60) 0 rfl rfl (by decide)
     (by norm_num [gpEx])⟩

/-- C6: one smoothing step with `ease = 1` snaps the current value exactly to
the target; with `ease = 12` it moves exactly 1/12 of the remaining distance;
in general the step is `current += (target - current) / ease`, applied
independently per position axis and per rotation axis, with no clamping. -/
theorem c6_easing (p t : Vec3) (e : ℚ) :
    addEase p t 1 = t
    ∧ addEaseEuler p t 1 = t
    ∧ addEase p t e = ⟨p.x + (t.x - p.x) / e, p.y + (t.y - p.y) / e,
        p.z + (t.z - p.z) / e⟩
    ∧ addEaseEuler p t e = ⟨p.x + (t.x - p.x) / e, p.y + (t.y - p.y) / e,
        p.z + (t.z - p.z) / e⟩
    ∧ (addEase p t 12).x - p.x = (t.x - p.x) / 12
    ∧ (addEase p t 12).y - p.y = (t.y - p.y) / 12
    ∧ (addEase p t 12).z - p.z = (t.z - p.z) / 12 := by
  refine ⟨?_, ?_, rfl, rfl, ?_, ?_, ?_⟩
  · cases p; cases t; simp [addEase]
  · cases p; cases t; simp [addEaseEuler]
  · show p.x + (t.x - p.x) / 12 - p.x = (t.x - p.x) / 12
    ring
  · show p.y + (t.y - p.y) / 12 - p.y = (t.y - p.y) / 12
    ring
  · show p.z + (t.z - p.z) / 12 - p.z = (t.z - p.z) / 12
    ring

/-- C7: color resolution follows the fallback chain — an explicitly configured
(truthy) color is parsed and returned regardless of DOM state; total parse
failure falls back to white; otherwise, with auto-detect on, the first
non-transparent ancestor background yields white when its luminance is below
0.5 and black at or above 0.5; with no explicit color and no ancestor found
(or auto-detect off, or no container) the result is black. -/
theorem c7_color_resolution (tp : String → Option Color) (wc : String)
    (ad : Bool) (cont : Option (List String)) (chain : List String)
    (detected : String) :
    (wc ≠ "" → determineWaveColor tp wc ad cont = parseColor tp wc)
    ∧ (tp wc = none → startsWithRgb wc = false → parseColor tp wc = white)
    ∧ (tp wc = none → (digitRuns wc.data).length < 3 → parseColor tp wc = white)
    ∧ (getElementBackground chain = some detected →
        luminance (parseColor tp detected) < 0.5 →
        determineWaveColor tp "" true (some chain) = white)
    ∧ (getElementBackground chain = some detected →
        0.5 ≤ luminance (parseColor tp detected) →
        determineWaveColor tp "" true (some chain) = black)
    ∧ (getElementBackground chain = none →
        determineWaveColor tp "" true (some chain) = black)
    ∧ determineWaveColor tp "" ad none = black
    ∧ determineWaveColor tp "" false cont = black := by
  refine ⟨?_, ?_, ?_, ?_, ?_, ?_, ?_, ?_⟩
  · intro hwc
    unfold determineWaveColor
    rw [if_pos hwc]
  · intro hnone hrgb
    unfold parseColor
    rw [hnone]
    dsimp only
    rw [hrgb]
    simp
  · intro hnone hlen
    unfold parseColor
    rw [hnone]
    dsimp only
    by_cases hR : startsWithRgb wc = true
    · rw [if_pos hR]
      rcases hl : digitRuns wc.data with _ | ⟨a, _ | ⟨b, _ | ⟨c, rest⟩⟩⟩
      · rfl
      · rfl
      · rfl
      · rw [hl] at hlen
        simp only [List.length_cons] at hlen
        omega
    · rw [if_neg hR]
  · intro hbg hlum
    unfold determineWaveColor
    rw [if_neg (by simp : ¬("" : String) ≠ "")]
    dsimp only
    rw [hbg]
    dsimp only
    rw [if_pos (show isColorDark (parseColor tp detected) = true by
      simp [isColorDark]
      exact hlum)]
  · intro hbg hlum
    unfold determineWaveColor
    rw [if_neg (by simp : ¬("" : String) ≠ "")]
    dsimp only
    rw [hbg]
    dsimp only
    rw [if_neg (show ¬ isColorDark (parseColor tp detected) = true by
      simp [isColorDark]
      exact hlum)]
  · intro hnone
    unfold determineWaveColor
    rw [if_neg (by simp : ¬("" : String) ≠ "")]
    dsimp only
    rw [hnone]
  · cases ad <;> rfl
  · cases cont <;> rfl

/-- A concrete stand-in for the `new THREE.Color` string constructor, used by
the executable witness: it recognises three hex strings and throws (`none`) on
everything else. -/
def tpEx : String → Option Color := fun s =>
  if s = "#ff0000" then some ⟨1, 0, 0⟩
  else if s = "#e6e6e6" then some ⟨0.9, 0.9, 0.9⟩
  else if s = "#1a1a1a" then some ⟨0.1, 0.1, 0.1⟩
  else none

/-- C7 (witness): the fallback chain evaluated on concrete colors — explicit
red wins over a light ancestor, an unparseable string falls back to white, a
dark ancestor (luminance 0.1) yields white, a light ancestor (luminance 0.9)
yields black, and an all-transparent chain, a missing container, or disabled
auto-detect yield black. -/
theorem c7_witness :
    determineWaveColor tpEx "#ff0000" true (some ["#e6e6e6"])
      = parseColor tpEx "#ff0000"
    ∧ parseColor tpEx "bogus" = white
    ∧ determineWaveColor tpEx "" true (some ["transparent", "#1a1a1a"]) = white
    ∧ determineWaveColor tpEx "" true (some ["rgba(0, 0, 0, 0)", "#e6e6e6"])
        = black
    ∧ determineWaveColor tpEx "" true (some ["transparent"]) = black
    ∧ determineWaveColor tpEx "" true none = black
    ∧ determineWaveColor tpEx "" false (some ["#1a1a1a"]) = black :=
  ⟨(c7_color_resolution tpEx "#ff0000" true (some ["#e6e6e6"]) [] "").1
      (by decide),
   (c7_color_resolution tpEx "bogus" true none [] "").2.1 (by decide) (by decide),
   (c7_color_resolution tpEx "" true none ["transparent", "#1a1a1a"]
      "#1a1a1a").2.2.2.1 (by decide)
      (by norm_num [show parseColor tpEx "#1a1a1a" = (⟨0.1, 0.1, 0.1⟩ : Color)
          from rfl, luminance]),
   (c7_color_resolution tpEx "" true none ["rgba(0, 0, 0, 0)", "#e6e6e6"]
      "#e6e6e6").2.2.2.2.1 (by decide)
      (by norm_num [show parseColor tpEx "#e6e6e6" = (⟨0.9, 0.9, 0.9⟩ : Color)
          from rfl, luminance]),
   (c7_color_resolution tpEx "" true none ["transparent"] "").2.2.2.2.2.1
      (by decide),
   (c7_color_resolution tpEx "" true none [] "").2.2.2.2.2.2.1,
   (c7_color_resolution tpEx "" false (some ["#1a1a1a"]) [] "").2.2.2.2.2.2.2⟩

/-- C8: the code initialises `this.mouse` to the *absolute* viewport center
`(screenCenterX, screenCenterY)`, while `handleMouseMove` stores pointer
coordinates *relative* to the center (an event at the actual center maps to
(0, 0)).  So before the first mousemove every tick feeds `update` the offset
`(500, 300)` on a 1000 × 600 viewport — not the center offset (0, 0) the spec
describes.  This theorem evaluates the code at that failing input. -/
theorem c8_initial_pointer :
    (setupScene {} (.ok ()) noiseEx sqEx 0 1000 600 true initComp).mouse
      = (500, 300)
    ∧ ((500, 300) : ℚ × ℚ) ≠ (0, 0)
    ∧ mouseCenterX 1000 500 = 0
    ∧ mouseCenterY 600 300 = 0 := by
  refine ⟨?_, by norm_num, ?_, ?_⟩
  · show (screenCenterX 1000, screenCenterY 600) = ((500 : ℚ), (300 : ℚ))
    norm_num [screenCenterX, screenCenterY, screenWidth, screenHeight, max_def,
      Prod.ext_iff]
  · norm_num [mouseCenterX, screenCenterX, screenWidth, max_def]
  · norm_num [mouseCenterY, screenCenterY, screenHeight, max_def]

/-- C9: when the rendering-context constructor throws during `setupScene`, the
failure is caught (the function still returns a state — the `catch` branch),
`webGLFailed` is set, and setup aborts before registering the pointer-move or
resize listener, before building the mesh engine, and before starting the
animation loop. -/
theorem c9_webgl_failure (cfg : WaveConfig) (msg : String) (noise : ℚ → ℚ → ℚ)
    (sq : ℚ → ℚ) (piRat w h : ℚ) :
    (setupScene cfg (.error msg) noise sq piRat w h true initComp).webGLFailed = true
    ∧ (setupScene cfg (.error msg) noise sq piRat w h true initComp).mousemoveRegistered
        = false
    ∧ (setupScene cfg (.error msg) noise sq piRat w h true initComp).resizeRegistered
        = false
    ∧ (setupScene cfg (.error msg) noise sq piRat w h true initComp).animationFrameId
        = none
    ∧ (setupScene cfg (.error msg) noise sq piRat w h true initComp).groundPlain
        = none
    ∧ (setupScene cfg (.error msg) noise sq piRat w h true initComp).renderer
        = none :=
  ⟨rfl, rfl, rfl, rfl, rfl, rfl⟩

theorem cleanupScene_eq (mi : Bool) (st : CompState) :
    cleanupScene mi st = .ok
      { st with
        mousemoveRegistered := if mi = true then false else st.mousemoveRegistered
        resizeRegistered := false
        groundPlain := none
        scene := none
        camera := none
        renderer := none
        animationFrameId := none
        pointLight := none
        canvasInContainer := if st.renderer.isSome = true then false
          else st.canvasInContainer } := by
  unfold cleanupScene removeChild
  rcases hr : st.renderer with _ | u <;> rcases hc : st.canvasInContainer <;>
    simp [hr, hc, Bind.bind, Except.bind, Pure.pure, Except.pure]

/-- C10: teardown deregisters the listeners registered at setup and is
idempotent — a second `cleanupScene` raises no error (both runs return `.ok`)
and changes nothing, with every handle (scene, camera, renderer, animation
frame id, point light, mesh engine) null afterwards; `dispose` itself nulls
the engine's geometry/material/plane/group/noise handles and is idempotent. -/
theorem c10_cleanup (miB : Bool) (st : CompState) (cfg : WaveConfig)
    (rr : Except String Unit) (noise : ℚ → ℚ → ℚ) (sq : ℚ → ℚ) (piRat w h : ℚ)
    (e : GroundPlain) :
    (∃ st1, cleanupScene miB st = .ok st1
      ∧ cleanupScene miB st1 = .ok st1
      ∧ st1.scene = none ∧ st1.camera = none ∧ st1.renderer = none
      ∧ st1.animationFrameId = none ∧ st1.pointLight = none
      ∧ st1.groundPlain = none)
    ∧ (∃ stc, cleanupScene cfg.mouseInteraction
          (setupScene cfg rr noise sq piRat w h true initComp) = .ok stc
        ∧ stc.mousemoveRegistered = false ∧ stc.resizeRegistered = false)
    ∧ (GroundPlain.dispose e).geometry = none
    ∧ (GroundPlain.dispose e).material = none
    ∧ (GroundPlain.dispose e).plane = none
    ∧ (GroundPlain.dispose e).group = none
    ∧ (GroundPlain.dispose e).simplex = none
    ∧ GroundPlain.dispose (GroundPlain.dispose e) = GroundPlain.dispose e := by
  refine ⟨⟨_, cleanupScene_eq miB st, ?_, rfl, rfl, rfl, rfl, rfl, rfl⟩,
    ⟨_, cleanupScene_eq cfg.mouseInteraction _, ?_, rfl⟩,
    rfl, rfl, rfl, rfl, rfl, rfl⟩
  · rw [cleanupScene_eq miB _]
    cases miB <;> rfl
  · show (if cfg.mouseInteraction = true then false
      else (setupScene cfg rr noise sq piRat w h true initComp).mousemoveRegistered)
      = false
    rcases rr with msg | u
    · have hmm : (setupScene cfg (.error msg) noise sq piRat w h true
          initComp).mousemoveRegistered = false := rfl
      rw [hmm]
      cases cfg.mouseInteraction <;> simp
    · have hmm : (setupScene cfg (.ok u) noise sq piRat w h true
          initComp).mousemoveRegistered = cfg.mouseInteraction := rfl
      rw [hmm]
      cases cfg.mouseInteraction <;> simp

end Wave
